import Mathlib

/-!
Shallow embedding of the GPU resource and frame-synchronization layer of the
hurdy-gurdy engine (`src/hg_vulkan_engine.cpp`), together with theorems
settling the specified properties of that layer.

Vulkan API calls are modelled by environments recording the outcome each call
would return; the control flow of each embedded function follows the C++
source line by line.  Machine handles are dropped (they only feed fatal
null-checks); byte memory is modelled as lists of natural numbers below 256.
-/

namespace hg

/-- Error tags, as in the repository's `Err` enumeration (the subset reachable
from the embedded functions). -/
inductive Err where
  | GlfwFailure
  | VulkanFailure
  | VulkanExtensionsUnavailable
  | CouldNotCreateVkInstance
  | VkQueueFamilyUnavailable
  | VkPhysicalDevicesUnavailable
  | VkPhysicalDevicesUnsuitable
  | CouldNotCreateVkDevice
  | InvalidWindowSize
  | CouldNotCreateVkSwapchain
  | CouldNotWaitForVkQueue
  | VkSwapchainImagesUnavailable
  | CouldNotWaitForVkFence
  | CouldNotAcquireVkSwapchainImage
  | CouldNotBeginVkCommandBuffer
  | CouldNotEndVkCommandBuffer
  | CouldNotSubmitVkCommandBuffer
  | CouldNotPresentVkSwapchainImage
  | CouldNotCreateGpuBuffer
  | CouldNotWriteGpuBuffer
  | CouldNotCreateGpuImage
  | CouldNotCreateGpuImageView
  | CouldNotWriteGpuImage
  | CouldNotGenerateMipmaps
  deriving DecidableEq, Repr

/-- Outcome of an embedded fallible function.  `ok` and `err` model the
repository's `Result` type (a value or a tagged `Err`); `contractViolation`
models a fatal assertion / programming-contract violation (`ASSERT`,
`ERROR`, or misuse of the `Result` accessors), which aborts rather than
returning. -/
inductive Res (α : Type) where
  | ok : α → Res α
  | err : Err → Res α
  | contractViolation : Res α
  deriving DecidableEq, Repr

/-- Outcomes of the underlying Vulkan calls that the embedded control flow
branches on.  Only the distinctions the source inspects are kept: success,
the out-of-date signal, and everything else. -/
inductive VkResult where
  | success
  | errorOutOfDateKHR
  | timeout
  | otherError
  deriving DecidableEq, Repr

/-! ## Presentation surface (Window) frame state machine -/

/-- The mutable `Window` state that `begin_frame`/`end_frame` touch:
`m_current_frame_index`, `m_current_image_index`, `m_recording`. -/
structure WindowState where
  currentFrameIndex : Nat
  currentImageIndex : Nat
  recording : Bool
  deriving DecidableEq, Repr

/-- Outcomes of the Vulkan calls made by `Window::begin_frame`, in call order:
fence wait, fence reset, swapchain image acquisition (result plus acquired
index), command-buffer begin. -/
structure BeginFrameEnv where
  waitResult : VkResult
  resetResult : VkResult
  acquireResult : VkResult
  acquiredImageIndex : Nat
  beginResult : VkResult
  deriving DecidableEq, Repr

/-- `Window::begin_frame`: asserts not recording; waits on the slot's fence
(`Err.CouldNotWaitForVkFence` on any non-success, timeout included); resets it
(`Err.VulkanFailure` on failure); acquires the next swapchain image
(`Err.CouldNotAcquireVkSwapchainImage` on ANY non-success result — the
out-of-date result is not special-cased here); begins command recording
(`Err.CouldNotBeginVkCommandBuffer` on failure) and sets the recording flag. -/
def Window.begin_frame (env : BeginFrameEnv) (s : WindowState) :
    Res Unit × WindowState :=
  if s.recording then (.contractViolation, s)
  else if env.waitResult ≠ .success then (.err .CouldNotWaitForVkFence, s)
  else if env.resetResult ≠ .success then (.err .VulkanFailure, s)
  else if env.acquireResult ≠ .success then (.err .CouldNotAcquireVkSwapchainImage, s)
  else
    let s1 : WindowState := { s with currentImageIndex := env.acquiredImageIndex }
    if env.beginResult ≠ .success then (.err .CouldNotBeginVkCommandBuffer, s1)
    else (.ok (), { s1 with recording := true })

/-- Outcomes of the Vulkan calls made by `Window::end_frame`, in call order:
command-buffer end, queue submit, queue present. -/
structure EndFrameEnv where
  endResult : VkResult
  submitResult : VkResult
  presentResult : VkResult
  deriving DecidableEq, Repr

/-- `Window::end_frame` for a frames-in-flight count `N` (the compile-time
constant `MaxFramesInFlight`, declared in the header): asserts recording; ends
the command buffer; submits; presents (`Err.InvalidWindowSize` on the
out-of-date result, `Err.CouldNotPresentVkSwapchainImage` on other failures);
only after a successful present does it advance
`m_current_frame_index = (m_current_frame_index + 1) % MaxFramesInFlight`. -/
def Window.end_frame (N : Nat) (env : EndFrameEnv) (s : WindowState) :
    Res Unit × WindowState :=
  if ¬ s.recording then (.contractViolation, s)
  else if env.endResult ≠ .success then (.err .CouldNotEndVkCommandBuffer, s)
  else
    let s1 : WindowState := { s with recording := false }
    if env.submitResult ≠ .success then (.err .CouldNotSubmitVkCommandBuffer, s1)
    else if env.presentResult = .errorOutOfDateKHR then (.err .InvalidWindowSize, s1)
    else if env.presentResult ≠ .success then (.err .CouldNotPresentVkSwapchainImage, s1)
    else (.ok (), { s1 with currentFrameIndex := (s1.currentFrameIndex + 1) % N })

/-- One `begin_frame`/`end_frame` cycle followed by the remaining cycles:
runs `begin_frame`, then `end_frame`, aborting at the first non-`ok`
outcome. -/
def Window.runCycles (N : Nat) (envs : List (BeginFrameEnv × EndFrameEnv))
    (s : WindowState) : Res Unit × WindowState :=
  match envs with
  | [] => (.ok (), s)
  | (benv, eenv) :: rest =>
    match Window.begin_frame benv s with
    | (.ok _, s1) =>
      match Window.end_frame N eenv s1 with
      | (.ok _, s2) => Window.runCycles N rest s2
      | (.err e, s2) => (.err e, s2)
      | (.contractViolation, s2) => (.contractViolation, s2)
    | (.err e, s1) => (.err e, s1)
    | (.contractViolation, s1) => (.contractViolation, s1)

/-! ## Physical-device selection (`find_queue_family`, `find_gpu`) -/

/-- The feature bits `find_gpu` inspects on each enumerated device. -/
structure PhysicalDeviceFeatures where
  sampleRateShading : Bool
  samplerAnisotropy : Bool
  deriving DecidableEq, Repr

/-- The queue-flag bits `find_queue_family` inspects on each queue family:
`vk::QueueFlagBits::eGraphics` and `vk::QueueFlagBits::eCompute`. -/
structure QueueFamilyProperties where
  graphics : Bool
  compute : Bool
  deriving DecidableEq, Repr

/-- One enumerated physical device, carrying the outcomes of the queries
`find_gpu` makes against it: its features, whether
`enumerateDeviceExtensionProperties` succeeds, the extension names it reports,
and its queue families. -/
structure PhysicalDevice where
  features : PhysicalDeviceFeatures
  extEnumOk : Bool
  extensions : List String
  queueFamilies : List QueueFamilyProperties
  deriving DecidableEq, Repr

/-- The three required device extension names (`DeviceExtensions` in the
source). -/
def DeviceExtensions : List String :=
  ["VK_KHR_swapchain", "VK_EXT_shader_object", "VK_EXT_descriptor_indexing"]

/-- The `std::ranges::find_if` of `find_queue_family`: index of the first
queue family whose flags intersect `eGraphics | eCompute`.  The source casts
`family.queueFlags & (eGraphics | eCompute)` to `bool`, which is true when at
least one of the two bits is set. -/
def findQueueFamilyIdx (fams : List QueueFamilyProperties) : Option Nat :=
  match fams with
  | [] => none
  | f :: rest =>
    if f.graphics || f.compute then some 0
    else (findQueueFamilyIdx rest).map (· + 1)

/-- `find_queue_family`: returns the index of the first queue family having
the graphics bit OR the compute bit, or `Err.VkQueueFamilyUnavailable` when no
family has either bit. -/
def find_queue_family (gpu : PhysicalDevice) : Res Nat :=
  match findQueueFamilyIdx gpu.queueFamilies with
  | some i => .ok i
  | none => .err .VkQueueFamilyUnavailable

/-- The device-extension test in `find_gpu` as written in the source: for each
required name, `any_of` over the device's extensions of
`strcmp(required, extension.extensionName)` used directly as a boolean —
`strcmp` is nonzero exactly when the strings DIFFER, so the inner predicate is
"some enumerated extension name differs from the required name". -/
def gpuHasExtensions (exts : List String) : Bool :=
  DeviceExtensions.all (fun required => exts.any (fun e => required != e))

/-- The check the spec describes (each required extension name is contained in
the device's enumerated extension list); stated for comparison with
`gpuHasExtensions`, the check the source performs. -/
def specContainsAllRequiredExtensions (exts : List String) : Bool :=
  DeviceExtensions.all (fun required => exts.any (fun e => required == e))

/-- The device loop of `find_gpu`: skips a device whose `sampleRateShading` or
`samplerAnisotropy` feature is off; returns `Err.VulkanFailure` when the
device's extension enumeration fails; skips a device failing the (as-written)
extension test or having no suitable queue family; returns the first remaining
device; `Err.VkPhysicalDevicesUnsuitable` when the list is exhausted. -/
def find_gpu_loop (gpus : List PhysicalDevice) : Res PhysicalDevice :=
  match gpus with
  | [] => .err .VkPhysicalDevicesUnsuitable
  | gpu :: rest =>
    if ¬ (gpu.features.sampleRateShading && gpu.features.samplerAnisotropy) then
      find_gpu_loop rest
    else if ¬ gpu.extEnumOk then .err .VulkanFailure
    else if ¬ gpuHasExtensions gpu.extensions then find_gpu_loop rest
    else
      match find_queue_family gpu with
      | .ok _ => .ok gpu
      | _ => find_gpu_loop rest

/-- `find_gpu`: enumerates physical devices
(`Err.VkPhysicalDevicesUnavailable` when enumeration fails) and runs the
device loop. -/
def find_gpu (enumeration : Option (List PhysicalDevice)) : Res PhysicalDevice :=
  match enumeration with
  | none => .err .VkPhysicalDevicesUnavailable
  | some gpus => find_gpu_loop gpus

/-! ## GPU buffers (`GpuBuffer::write_result`) -/

/-- The buffer memory tiers (`GpuBuffer::MemoryType`). -/
inductive MemoryType where
  | RandomAccess
  | Staging
  | DeviceLocal
  deriving DecidableEq, Repr

/-- A GPU buffer as the write path sees it: its memory tier and its byte
content (one natural number below 256 per byte). -/
structure GpuBuffer where
  memory_type : MemoryType
  content : List Nat
  deriving DecidableEq, Repr

/-- Writing `data` into byte store `dst` at byte `offset`
(`vmaCopyMemoryToAllocation` semantics: the destination range
`[offset, offset + data.length)` receives `data`, everything else is kept). -/
def writeBytes (dst : List Nat) (offset : Nat) (data : List Nat) : List Nat :=
  dst.take offset ++ data ++ dst.drop (offset + data.length)

/-- Reading `len` bytes at byte `offset` from byte store `src`; a read past
the end of the store yields nothing (the underlying API call would be
out-of-bounds / invalid usage there). -/
def readBytes (src : List Nat) (offset len : Nat) : List Nat :=
  (src.drop offset).take len

/-- Outcomes of the fallible calls made by `GpuBuffer::write_result`, in call
order: the temporary staging-buffer creation, `vmaCopyMemoryToAllocation`, and
the single-time-command submission of the GPU copy. -/
structure WriteEnv where
  stagingAllocOk : Bool
  copyOk : Bool
  submitOk : Bool
  deriving DecidableEq, Repr

/-- Output of an embedded `write_result` call: the outcome, the destination
buffer's content afterwards, and whether a temporary staging buffer was
created and released. -/
structure WriteOut where
  result : Res Unit
  content : List Nat
  stagingCreated : Bool
  stagingReleased : Bool
  deriving DecidableEq, Repr

/-- `GpuBuffer::write_result`: asserts `size != 0` and, for the Staging tier,
`offset == 0`.  RandomAccess/Staging: one `vmaCopyMemoryToAllocation` into the
mapped allocation at `offset` (`Err.CouldNotWriteGpuBuffer` on failure).
DeviceLocal: creates a temporary Staging buffer of size `size` (propagating
`Err.CouldNotCreateGpuBuffer` on failure), registers `defer(vmaDestroyBuffer(
staging))` so the temporary buffer is released on every later exit path,
copies `data` into it at offset 0 — on copy failure the source executes
`return staging_buffer.err()` on a Result holding NO error, a misuse of the
Result accessor modelled as a contract violation — then submits a GPU
`copyBuffer` with `vk::BufferCopy(offset, 0, size)`, i.e. source offset
`offset` into the staging buffer and destination offset 0
(`Err.CouldNotWriteGpuBuffer` when the submission fails). -/
def GpuBuffer.write_result (env : WriteEnv) (buf : GpuBuffer) (data : List Nat)
    (offset : Nat) : WriteOut :=
  if data.length = 0 then ⟨.contractViolation, buf.content, false, false⟩
  else if buf.memory_type = .Staging ∧ offset ≠ 0 then
    ⟨.contractViolation, buf.content, false, false⟩
  else if buf.memory_type = .RandomAccess ∨ buf.memory_type = .Staging then
    if ¬ env.copyOk then ⟨.err .CouldNotWriteGpuBuffer, buf.content, false, false⟩
    else ⟨.ok (), writeBytes buf.content offset data, false, false⟩
  else
    if ¬ env.stagingAllocOk then
      ⟨.err .CouldNotCreateGpuBuffer, buf.content, false, false⟩
    else if ¬ env.copyOk then ⟨.contractViolation, buf.content, true, true⟩
    else if ¬ env.submitOk then
      ⟨.err .CouldNotWriteGpuBuffer, buf.content, true, true⟩
    else
      let staging : List Nat := writeBytes (List.replicate data.length 0) 0 data
      ⟨.ok (), writeBytes buf.content 0 (readBytes staging offset data.length),
        true, true⟩

/-! ## GPU images: creation, mip-chain generation, cubemap assembly -/

/-- A `vk::Extent3D`. -/
structure Extent3D where
  width : Nat
  height : Nat
  depth : Nat
  deriving DecidableEq, Repr

/-- The image layouts appearing in the embedded image paths. -/
inductive ImageLayout where
  | undefined
  | transferSrcOptimal
  | transferDstOptimal
  | shaderReadOnlyOptimal
  | general
  deriving DecidableEq, Repr

/-- A `vk::ImageSubresourceRange` without the aspect mask (the embedded paths
only use the colour aspect). -/
structure SubresourceRange where
  baseMipLevel : Nat
  levelCount : Nat
  baseArrayLayer : Nat
  layerCount : Nat
  deriving DecidableEq, Repr

/-- One axis step of the mip-extent computation in
`GpuImage::generate_mipmaps_result`: `if (axis > 1) axis /= 2`. -/
def halveAxis (x : Nat) : Nat := if x > 1 then x / 2 else x

/-- The per-level extent step: each axis of `mip_offset` is halved when above
one, independently of the others. -/
def halveExtent (e : Extent3D) : Extent3D :=
  ⟨halveAxis e.width, halveAxis e.height, halveAxis e.depth⟩

/-- The dimensions of mip level `i`: level 0 is the full extent, each later
level is the previous one with every axis above one halved. -/
def mipDims (e : Extent3D) : Nat → Extent3D
  | 0 => e
  | n + 1 => halveExtent (mipDims e n)

/-- One `vk::ImageBlit2` issued by the mip loop: source/destination mip level
and the extents placed in `srcOffsets[1]` / `dstOffsets[1]`. -/
structure BlitRegion where
  srcLevel : Nat
  dstLevel : Nat
  srcExtent : Extent3D
  dstExtent : Extent3D
  deriving DecidableEq, Repr

/-- The mip loop of `generate_mipmaps_result`: `mip_offset` starts at the full
extent; at each level the blit reads the current `mip_offset` from `level`,
halves each axis above one, and writes the halved `mip_offset` to
`level + 1`. -/
def mipBlitsLoop (cur : Extent3D) (level remaining : Nat) : List BlitRegion :=
  match remaining with
  | 0 => []
  | r + 1 =>
    let next := halveExtent cur
    ⟨level, level + 1, cur, next⟩ :: mipBlitsLoop next (level + 1) r

/-- The blits issued by `GpuImage::generate_mipmaps_result` for `mip_levels`
levels: the loop body runs for `level = 0 .. mip_levels - 2`. -/
def generate_mipmaps_blits (extent : Extent3D) (mip_levels : Nat) :
    List BlitRegion :=
  mipBlitsLoop extent 0 (mip_levels - 1)

/-- One `vk::ImageCopy2` of the cubemap assembly: the source texel offset into
the cross-layout staging image, the destination array layer, and the copied
extent. -/
structure CubeCopyRegion where
  srcOffsetX : Nat
  srcOffsetY : Nat
  dstBaseLayer : Nat
  extent : Extent3D
  deriving DecidableEq, Repr

/-- The cube face extent derived by `GpuImage::create_cubemap` from a
cross-layout image of size `W × H`: `(W / 4, H / 3, 1)`. -/
def cubemapExtent (W H : Nat) : Extent3D := ⟨W / 4, H / 3, 1⟩

/-- The six copy regions issued by `GpuImage::create_cubemap` for a
cross-layout image of size `W × H`, in source order: destination layers
0..5 (+X, -X, +Y, -Y, +Z, -Z), each copying one `(W/4, H/3)` cell of the
4-column × 3-row cross at the source offsets written in the source. -/
def cubemapCopies (W H : Nat) : List CubeCopyRegion :=
  [ ⟨W * 2 / 4, H * 1 / 3, 0, cubemapExtent W H⟩,
    ⟨W * 0 / 4, H * 1 / 3, 1, cubemapExtent W H⟩,
    ⟨W * 1 / 4, H * 0 / 3, 2, cubemapExtent W H⟩,
    ⟨W * 1 / 4, H * 2 / 3, 3, cubemapExtent W H⟩,
    ⟨W * 1 / 4, H * 1 / 3, 4, cubemapExtent W H⟩,
    ⟨W * 3 / 4, H * 1 / 3, 5, cubemapExtent W H⟩ ]

/-- The `VkImageCreateInfo` fields of the cube image created by
`create_cubemap` that the claims inspect. -/
structure CubeImageInfo where
  extent : Extent3D
  mipLevels : Nat
  arrayLayers : Nat
  cubeCompatible : Bool
  deriving DecidableEq, Repr

/-- The cube image `create_cubemap` creates for a `W × H` cross layout:
extent `(W/4, H/3, 1)`, one mip level, six array layers,
`VK_IMAGE_CREATE_CUBE_COMPATIBLE_BIT` set. -/
def cubemapImageInfo (W H : Nat) : CubeImageInfo :=
  ⟨cubemapExtent W H, 1, 6, true⟩

/-- The configuration fields of `GpuImage::create_result` the embedded path
branches on. -/
structure ImageConfig where
  extent : Extent3D
  mip_levels : Nat
  layout : ImageLayout
  deriving DecidableEq, Repr

/-- Outcomes of the fallible calls made by `GpuImage::create_result`, in call
order: the underlying image allocation, the view creation, and the
layout-transition submission. -/
structure CreateImageEnv where
  allocOk : Bool
  viewOk : Bool
  submitOk : Bool
  deriving DecidableEq, Repr

/-- What an embedded `create_result` call produces on success: the subresource
range of the created image view, and the subresource range of the one-shot
layout-transition barrier when one was issued (`none` when the requested
layout is `undefined` and no transition happens). -/
structure CreatedImage where
  viewRange : SubresourceRange
  transitionRange : Option SubresourceRange
  transitionLayout : Option ImageLayout
  deriving DecidableEq, Repr

/-- `GpuImage::create_result`: creates the image (`Err.CouldNotCreateGpuImage`
on allocation failure), creates a view over `{aspect, 0, mip_levels, 0, 1}`
(`Err.CouldNotCreateGpuImageView` on failure); when the requested layout is
not `undefined`, submits one barrier over `{eColor, 0, 1, 0, 1}` — base mip
level 0, level count 1 — transitioning to the requested layout
(`Err.CouldNotCreateGpuImage` when the submission fails). -/
def GpuImage.create_result (env : CreateImageEnv) (config : ImageConfig) :
    Res CreatedImage :=
  if config.extent.width = 0 ∨ config.extent.height = 0 ∨ config.extent.depth = 0
      ∨ config.mip_levels = 0 then
    .contractViolation
  else if ¬ env.allocOk then .err .CouldNotCreateGpuImage
  else if ¬ env.viewOk then .err .CouldNotCreateGpuImageView
  else if config.layout = .undefined then
    .ok ⟨⟨0, config.mip_levels, 0, 1⟩, none, none⟩
  else if ¬ env.submitOk then .err .CouldNotCreateGpuImage
  else
    .ok ⟨⟨0, config.mip_levels, 0, 1⟩, some ⟨0, 1, 0, 1⟩, some config.layout⟩

/-- Whether a subresource range covers mip level `l`. -/
def SubresourceRange.coversMip (r : SubresourceRange) (l : Nat) : Prop :=
  r.baseMipLevel ≤ l ∧ l < r.baseMipLevel + r.levelCount

instance (r : SubresourceRange) (l : Nat) : Decidable (r.coversMip l) := by
  unfold SubresourceRange.coversMip; infer_instance

/-! ## Concrete instances used by witnesses and counterexamples -/

/-- A `begin_frame` environment in which every Vulkan call succeeds. -/
def benvOk : BeginFrameEnv := ⟨.success, .success, .success, 0, .success⟩

/-- An `end_frame` environment in which every Vulkan call succeeds. -/
def eenvOk : EndFrameEnv := ⟨.success, .success, .success⟩

/-- An `end_frame` environment in which the presentation call reports the
surface out of date. -/
def eenvPresentOutOfDate : EndFrameEnv := ⟨.success, .success, .errorOutOfDateKHR⟩

/-- A `begin_frame` environment in which acquisition reports the surface out
of date and everything else succeeds. -/
def benvAcquireOutOfDate : BeginFrameEnv :=
  ⟨.success, .success, .errorOutOfDateKHR, 0, .success⟩

/-- A physical device with both required features, a working extension
enumeration returning a single unrelated extension name (none of the three
required extensions are present), and one graphics+compute queue family. -/
def gpuMissingExtensions : PhysicalDevice :=
  ⟨⟨true, true⟩, true, ["VK_LAYER_other"], [⟨true, true⟩]⟩

/-- A physical device whose only queue family has the compute bit but not the
graphics bit. -/
def gpuComputeOnly : PhysicalDevice :=
  ⟨⟨true, true⟩, true, DeviceExtensions, [⟨false, true⟩]⟩

/-- A write environment in which every call succeeds. -/
def envWriteOk : WriteEnv := ⟨true, true, true⟩

/-- A write environment in which the staging allocation succeeds and the
mapped copy (`vmaCopyMemoryToAllocation`) fails. -/
def envCopyFail : WriteEnv := ⟨true, false, true⟩

/-- A 64-byte buffer of the Staging tier, initially zeroed. -/
def bufStaging64 : GpuBuffer := ⟨.Staging, List.replicate 64 0⟩

/-- A 64-byte buffer of the RandomAccess tier, initially zeroed. -/
def bufRandomAccess64 : GpuBuffer := ⟨.RandomAccess, List.replicate 64 0⟩

/-- An 8-byte DeviceLocal buffer whose bytes are all 7. -/
def bufDeviceLocal8 : GpuBuffer := ⟨.DeviceLocal, List.replicate 8 7⟩

/-- 64 bytes of value 0xFF. -/
def bytes64FF : List Nat := List.replicate 64 255

/-! ## Theorems: frame pacing (C1, C2) -/

/-- A successful `begin_frame` stores the acquired image index, sets the
recording flag, and leaves the frame slot index unchanged. -/
theorem begin_frame_ok_state (env : BeginFrameEnv) (s s1 : WindowState)
    (h : Window.begin_frame env s = (.ok (), s1)) :
    s1 = ⟨s.currentFrameIndex, env.acquiredImageIndex, true⟩ := by
  unfold Window.begin_frame at h
  split_ifs at h <;> simp_all

/-- A successful `end_frame` clears the recording flag and advances the frame
slot index by one modulo `N`. -/
theorem end_frame_ok_state (N : Nat) (env : EndFrameEnv) (s s1 : WindowState)
    (h : Window.end_frame N env s = (.ok (), s1)) :
    s1 = ⟨(s.currentFrameIndex + 1) % N, s.currentImageIndex, false⟩ := by
  unfold Window.end_frame at h
  split_ifs at h <;> simp_all

/-- An unsuccessful `end_frame` leaves the frame slot index unchanged. -/
theorem end_frame_not_ok_index (N : Nat) (env : EndFrameEnv) (s : WindowState)
    (h : (Window.end_frame N env s).1 ≠ .ok ()) :
    (Window.end_frame N env s).2.currentFrameIndex = s.currentFrameIndex := by
  unfold Window.end_frame at *
  split_ifs at h ⊢ <;> simp_all

/-- After a run of successful `begin_frame`/`end_frame` cycles starting
outside a recording pair at a slot index below `N`, the slot index has
advanced by the number of cycles, modulo `N`. -/
theorem runCycles_ok_index (N : Nat) (envs : List (BeginFrameEnv × EndFrameEnv)) :
    ∀ s s2 : WindowState, s.recording = false → s.currentFrameIndex < N →
      Window.runCycles N envs s = (.ok (), s2) →
      s2.currentFrameIndex = (s.currentFrameIndex + envs.length) % N := by
  induction envs with
  | nil =>
    intro s s2 hrec hlt h
    simp only [Window.runCycles, Prod.mk.injEq, true_and] at h
    subst h
    simpa using (Nat.mod_eq_of_lt hlt).symm
  | cons p rest ih =>
    obtain ⟨benv, eenv⟩ := p
    intro s s2 hrec hlt h
    have hN : 0 < N := by omega
    unfold Window.runCycles at h
    split at h
    case _ a s1 hb =>
      split at h
      case _ b s1' he =>
        cases a; cases b
        have hs1 := begin_frame_ok_state benv s s1 hb
        subst hs1
        have hs1' := end_frame_ok_state N eenv _ s1' he
        subst hs1'
        have hfin := ih _ s2 rfl (Nat.mod_lt _ hN) h
        simp only at hfin
        rw [hfin]
        have hmod : ((s.currentFrameIndex + 1) % N + rest.length) % N
            = (s.currentFrameIndex + 1 + rest.length) % N :=
          (Nat.mod_modEq (s.currentFrameIndex + 1) N).add_right rest.length
        rw [hmod]
        simp only [List.length_cons]
        congr 1
        omega
      case _ e s1' he => simp at h
      case _ s1' he => simp at h
    case _ e s1 hb => simp at h
    case _ s1 hb => simp at h

/-- C1 counterexample: an `end_frame` call whose presentation reports the
surface out of date returns an error and leaves the frame slot index at its
old value (here 0, not (0 + 1) % 2), so the index does NOT advance regardless
of outcome. -/
theorem end_frame_out_of_date_keeps_frame_index :
    (Window.end_frame 2 eenvPresentOutOfDate ⟨0, 0, true⟩).1 = .err .InvalidWindowSize
    ∧ (Window.end_frame 2 eenvPresentOutOfDate ⟨0, 0, true⟩).2.currentFrameIndex = 0 := by
  decide

/-- C1 (amended): the frame slot index advances modulo `N` exactly on
successful `end_frame` calls — on any failure path (end, submit, or present
failing, the out-of-date present included) it is unchanged — and after `N`
consecutive successful `begin_frame`/`end_frame` cycles the index returns to
its starting value. -/
theorem frame_index_advances_only_on_success_and_cycles (N : Nat) :
    (∀ (env : EndFrameEnv) (s : WindowState),
        (Window.end_frame N env s).1 = .ok () →
        (Window.end_frame N env s).2.currentFrameIndex = (s.currentFrameIndex + 1) % N)
    ∧ (∀ (env : EndFrameEnv) (s : WindowState),
        (Window.end_frame N env s).1 ≠ .ok () →
        (Window.end_frame N env s).2.currentFrameIndex = s.currentFrameIndex)
    ∧ (∀ (envs : List (BeginFrameEnv × EndFrameEnv)) (s s2 : WindowState),
        s.recording = false → s.currentFrameIndex < N → envs.length = N →
        Window.runCycles N envs s = (.ok (), s2) →
        s2.currentFrameIndex = s.currentFrameIndex) := by
  refine ⟨?_, ?_, ?_⟩
  · intro env s h
    unfold Window.end_frame at *
    split_ifs at h ⊢
    simp_all
  · intro env s h
    exact end_frame_not_ok_index N env s h
  · intro envs s s2 hrec hlt hlen h
    have := runCycles_ok_index N envs s s2 hrec hlt h
    rw [this, hlen, Nat.add_mod_right]
    exact Nat.mod_eq_of_lt hlt

/-- Witness for C1's theorem: two successful cycles with `N = 2` from slot 0
end back at slot 0. -/
theorem frame_index_cycles_witness :
    Window.runCycles 2 [(benvOk, eenvOk), (benvOk, eenvOk)] ⟨0, 5, false⟩
      = (.ok (), ⟨0, 0, false⟩)
    ∧ (WindowState.mk 0 0 false).currentFrameIndex
      = (WindowState.mk 0 5 false).currentFrameIndex :=
  ⟨by decide,
    (frame_index_advances_only_on_success_and_cycles 2).2.2
      [(benvOk, eenvOk), (benvOk, eenvOk)] ⟨0, 5, false⟩ ⟨0, 0, false⟩
      rfl (by decide) rfl (by decide)⟩

/-- C2 counterexample: with the fence wait and reset succeeding, an
acquisition result of "surface out of date" makes `begin_frame` return the
error `Err.CouldNotAcquireVkSwapchainImage` — the out-of-date result alone IS
reported as an error, contrary to the claim. -/
theorem begin_frame_reports_out_of_date_as_error :
    (Window.begin_frame benvAcquireOutOfDate ⟨0, 0, false⟩).1
      = .err .CouldNotAcquireVkSwapchainImage := by
  decide

/-- C2 (amended): outside a recording pair, `begin_frame` succeeds exactly
when the fence wait, the fence reset, the image acquisition, and the
command-buffer begin all succeed; it fails exactly when any of the four fails
(the fence reset is a failure case too); and an acquisition result of
"surface out of date" after a successful wait and reset is reported as the
error `Err.CouldNotAcquireVkSwapchainImage`, not treated as recoverable. -/
theorem begin_frame_failure_characterization (env : BeginFrameEnv)
    (s : WindowState) (hrec : s.recording = false) :
    ((Window.begin_frame env s).1 = .ok () ↔
      env.waitResult = .success ∧ env.resetResult = .success ∧
      env.acquireResult = .success ∧ env.beginResult = .success)
    ∧ ((∃ e, (Window.begin_frame env s).1 = .err e) ↔
      (env.waitResult ≠ .success ∨ env.resetResult ≠ .success ∨
        env.acquireResult ≠ .success ∨ env.beginResult ≠ .success))
    ∧ (env.waitResult = .success → env.resetResult = .success →
        env.acquireResult = .errorOutOfDateKHR →
        (Window.begin_frame env s).1 = .err .CouldNotAcquireVkSwapchainImage) := by
  rcases env with ⟨w, r, a, idx, b⟩
  cases w <;> cases r <;> cases a <;> cases b <;>
    simp [Window.begin_frame, hrec]

/-- Witness for C2's theorem: at the out-of-date acquisition environment and a
non-recording state, `begin_frame` returns some error. -/
theorem begin_frame_failure_characterization_witness :
    ∃ e, (Window.begin_frame benvAcquireOutOfDate ⟨0, 0, false⟩).1 = .err e :=
  ((begin_frame_failure_characterization benvAcquireOutOfDate ⟨0, 0, false⟩
    rfl).2.1).mpr (by decide)

/-! ## Theorems: device selection (C3, C4) -/

/-- C3 (code bug): `find_gpu` returns a device none of whose enumerated
extensions is one of the three required device extensions.  The source tests
`strcmp(required, extension.extensionName)` directly as a boolean inside
`any_of` — true when the names DIFFER — so a device reporting any extension
name other than the required one passes the check; the containment test the
spec describes (`specContainsAllRequiredExtensions`, matching the correct
`strcmp(...) == 0` comparison used for instance extensions a few lines above)
rejects this device. -/
theorem find_gpu_accepts_device_missing_required_extensions :
    find_gpu (some [gpuMissingExtensions]) = .ok gpuMissingExtensions
    ∧ specContainsAllRequiredExtensions gpuMissingExtensions.extensions = false :=
  ⟨rfl, rfl⟩

/-- C4 counterexample: a device whose only queue family has the compute bit
but not the graphics bit is accepted by `find_queue_family` (index 0), though
that family's flags do not include both required bits. -/
theorem find_queue_family_accepts_compute_only_family :
    find_queue_family gpuComputeOnly = .ok 0
    ∧ gpuComputeOnly.queueFamilies[0]? = some ⟨false, true⟩ :=
  ⟨rfl, rfl⟩

/-- Indices returned by the queue-family search point at the first family
having the graphics bit or the compute bit. -/
theorem findQueueFamilyIdx_spec (fams : List QueueFamilyProperties) :
    ∀ i, findQueueFamilyIdx fams = some i →
      ∃ f, fams[i]? = some f ∧ (f.graphics || f.compute) = true ∧
        ∀ j, j < i → ∀ g, fams[j]? = some g →
          (g.graphics || g.compute) = false := by
  induction fams with
  | nil => intro i h; simp [findQueueFamilyIdx] at h
  | cons f rest ih =>
    intro i h
    unfold findQueueFamilyIdx at h
    by_cases hf : (f.graphics || f.compute) = true
    · rw [if_pos hf] at h
      cases h
      exact ⟨f, by simp, hf, by intro j hj; omega⟩
    · rw [if_neg (by simpa using hf)] at h
      rw [Option.map_eq_some'] at h
      obtain ⟨i', hi', rfl⟩ := h
      obtain ⟨g, hg, hgc, hmin⟩ := ih i' hi'
      refine ⟨g, by simpa using hg, hgc, ?_⟩
      intro j hj g2 hg2
      cases j with
      | zero =>
        simp only [List.getElem?_cons_zero, Option.some.injEq] at hg2
        subst hg2
        simpa using hf
      | succ j2 =>
        refine hmin j2 (by omega) g2 ?_
        simpa using hg2

/-- When no queue family has the graphics bit or the compute bit, the search
finds nothing. -/
theorem findQueueFamilyIdx_none (fams : List QueueFamilyProperties)
    (h : ∀ f ∈ fams, (f.graphics || f.compute) = false) :
    findQueueFamilyIdx fams = none := by
  induction fams with
  | nil => rfl
  | cons f rest ih =>
    unfold findQueueFamilyIdx
    rw [if_neg (by simp [h f (List.mem_cons_self f rest)]),
      ih (fun g hg => h g (List.mem_cons_of_mem f hg))]
    rfl

/-- C4 (amended): every index returned by `find_queue_family` points at a
family whose queue flags include the graphics bit OR the compute bit — at
least one of the two, not necessarily both — and it is the first such family
in enumeration order; when no family has either bit, selection fails with
`Err.VkQueueFamilyUnavailable`. -/
theorem find_queue_family_first_graphics_or_compute (gpu : PhysicalDevice) :
    (∀ i, find_queue_family gpu = .ok i →
      ∃ f, gpu.queueFamilies[i]? = some f ∧ (f.graphics || f.compute) = true ∧
        ∀ j, j < i → ∀ g, gpu.queueFamilies[j]? = some g →
          (g.graphics || g.compute) = false)
    ∧ ((∀ f ∈ gpu.queueFamilies, (f.graphics || f.compute) = false) →
      find_queue_family gpu = .err .VkQueueFamilyUnavailable) := by
  constructor
  · intro i h
    unfold find_queue_family at h
    rcases hidx : findQueueFamilyIdx gpu.queueFamilies with - | i'
    · rw [hidx] at h; cases h
    · rw [hidx] at h
      cases h
      exact findQueueFamilyIdx_spec gpu.queueFamilies _ hidx
  · intro h
    unfold find_queue_family
    rw [findQueueFamilyIdx_none gpu.queueFamilies h]

/-- Witness for C4's theorem: at the compute-only device, the returned index 0
points at a family with at least one of the two bits. -/
theorem find_queue_family_first_graphics_or_compute_witness :
    ∃ f, gpuComputeOnly.queueFamilies[0]? = some f
      ∧ (f.graphics || f.compute) = true
      ∧ ∀ j, j < 0 → ∀ g, gpuComputeOnly.queueFamilies[j]? = some g →
          (g.graphics || g.compute) = false :=
  (find_queue_family_first_graphics_or_compute gpuComputeOnly).1 0 rfl

/-! ## Theorems: buffer writes (C5, C6, C9) -/

/-- C5 (code bug): on a DeviceLocal write whose staging allocation succeeds
and whose mapped copy (`vmaCopyMemoryToAllocation`) fails, the source executes
`return staging_buffer.err()` on a Result holding NO error — a fatal misuse of
the Result accessor instead of the distinct copy-failure error
(`Err::CouldNotWriteGpuBuffer`) that the RandomAccess/Staging path returns for
the same call — though the deferred destroy still releases the temporary
staging buffer; in general, on every exit path of `write_result` a temporary
staging buffer is released exactly when one was created. -/
theorem write_result_copy_failure_misuses_result_and_releases_staging :
    (GpuBuffer.write_result envCopyFail bufDeviceLocal8 (List.replicate 4 255) 0
      = ⟨.contractViolation, List.replicate 8 7, true, true⟩)
    ∧ ∀ (env : WriteEnv) (buf : GpuBuffer) (data : List Nat) (offset : Nat),
        (GpuBuffer.write_result env buf data offset).stagingCreated
          = (GpuBuffer.write_result env buf data offset).stagingReleased := by
  refine ⟨rfl, ?_⟩
  intro env buf data offset
  unfold GpuBuffer.write_result
  split_ifs <;> rfl

/-- C6 (code bug): writing the single byte `1` at offset 4 into an 8-byte
DeviceLocal buffer of sevens is reported as success, yet reading the
destination region `[4, 5)` back still yields `[7]`, not the written byte:
the GPU copy is issued as `vk::BufferCopy(offset, 0, size)`, reading the
1-byte staging buffer at source offset 4 (past its end) and writing at
destination offset 0 — the source and destination offsets are swapped. -/
theorem write_result_offset_write_misses_destination_region :
    (GpuBuffer.write_result envWriteOk bufDeviceLocal8 [1] 4).result = .ok ()
    ∧ readBytes (GpuBuffer.write_result envWriteOk bufDeviceLocal8 [1] 4).content 4 1
        = [7]
    ∧ ([7] : List Nat) ≠ [1] :=
  ⟨rfl, rfl, by decide⟩

/-- C9: writing 64 bytes of value 0xFF into a 64-byte Staging buffer at
offset 0 succeeds and copies the bytes directly into the mapped allocation;
the same call at offset 4 fails the offset-must-be-zero precondition (a fatal
assertion); a RandomAccess-tier write passes the precondition at every
offset. -/
theorem staging_write_offset_contract :
    ((GpuBuffer.write_result envWriteOk bufStaging64 bytes64FF 0).result = .ok ()
      ∧ (GpuBuffer.write_result envWriteOk bufStaging64 bytes64FF 0).content
          = bytes64FF)
    ∧ (GpuBuffer.write_result envWriteOk bufStaging64 bytes64FF 4).result
        = .contractViolation
    ∧ ∀ offset : Nat,
        (GpuBuffer.write_result envWriteOk bufRandomAccess64 bytes64FF offset).result
          = .ok () := by
  refine ⟨⟨rfl, by decide⟩, rfl, ?_⟩
  intro offset
  rfl

/-! ## Theorems: mip generation and cubemap assembly (C7, C8) -/

/-- The per-axis mip step keeps every axis positive. -/
theorem halveAxis_pos (x : Nat) (h : 0 < x) : 0 < halveAxis x := by
  unfold halveAxis
  split_ifs <;> omega

/-- On a positive axis, the per-axis mip step is halving with a floor of 1:
an axis already at 1 stays at 1, any other axis is halved by integer
division. -/
theorem halveAxis_eq_max (x : Nat) (h : 0 < x) : halveAxis x = max (x / 2) 1 := by
  unfold halveAxis
  split_ifs <;> omega

/-- All mip levels of a positive extent have positive dimensions. -/
theorem mipDims_pos (e : Extent3D) (hw : 0 < e.width) (hh : 0 < e.height)
    (hd : 0 < e.depth) (k : Nat) :
    0 < (mipDims e k).width ∧ 0 < (mipDims e k).height ∧ 0 < (mipDims e k).depth := by
  induction k with
  | zero => exact ⟨hw, hh, hd⟩
  | succ n ih =>
    simp only [mipDims, halveExtent]
    exact ⟨halveAxis_pos _ ih.1, halveAxis_pos _ ih.2.1, halveAxis_pos _ ih.2.2⟩

/-- Every blit of the mip loop started at level `level` with the matching
running extent reads level `i` at the dimensions of mip `i` and writes level
`i + 1` at the dimensions of mip `i + 1`. -/
theorem mipBlitsLoop_spec (e : Extent3D) :
    ∀ (r level : Nat) (reg : BlitRegion),
      reg ∈ mipBlitsLoop (mipDims e level) level r →
      reg.srcExtent = mipDims e reg.srcLevel
      ∧ reg.dstLevel = reg.srcLevel + 1
      ∧ reg.dstExtent = mipDims e (reg.srcLevel + 1) := by
  intro r
  induction r with
  | zero => intro level reg h; simp [mipBlitsLoop] at h
  | succ n ih =>
    intro level reg h
    simp only [mipBlitsLoop, List.mem_cons] at h
    rcases h with rfl | h
    · exact ⟨rfl, rfl, rfl⟩
    · exact ih (level + 1) reg h

/-- C7: for a positive extent and a mip level count above 1, every blit that
`generate_mipmaps_result` issues writes level `i + 1` at the dimensions of
level `i` halved independently per axis by integer division with a floor
of 1 (an axis already at 1 stays at 1), never zero; on extent (17, 5, 1) the
width sequence of the levels is 17, 8, 4, 2, 1, 1 and the height sequence is
5, 2, 1, 1. -/
theorem generate_mipmaps_dimension_halving (e : Extent3D) (L : Nat)
    (hw : 0 < e.width) (hh : 0 < e.height) (hd : 0 < e.depth) (hL : 1 < L) :
    (∀ reg ∈ generate_mipmaps_blits e L,
        reg.dstLevel = reg.srcLevel + 1
        ∧ reg.srcExtent = mipDims e reg.srcLevel
        ∧ reg.dstExtent = mipDims e (reg.srcLevel + 1)
        ∧ reg.dstExtent.width = max (reg.srcExtent.width / 2) 1
        ∧ reg.dstExtent.height = max (reg.srcExtent.height / 2) 1
        ∧ reg.dstExtent.depth = max (reg.srcExtent.depth / 2) 1
        ∧ 0 < reg.dstExtent.width ∧ 0 < reg.dstExtent.height
        ∧ 0 < reg.dstExtent.depth)
    ∧ (List.range 6).map (fun k => (mipDims ⟨17, 5, 1⟩ k).width)
        = [17, 8, 4, 2, 1, 1]
    ∧ (List.range 4).map (fun k => (mipDims ⟨17, 5, 1⟩ k).height)
        = [5, 2, 1, 1] := by
  refine ⟨?_, by decide, by decide⟩
  intro reg hreg
  obtain ⟨hsrc, hstep, hdexp⟩ := mipBlitsLoop_spec e (L - 1) 0 reg hreg
  obtain ⟨hpw, hph, hpd⟩ := mipDims_pos e hw hh hd reg.srcLevel
  refine ⟨hstep, hsrc, hdexp, ?_, ?_, ?_, ?_, ?_, ?_⟩
  · rw [hdexp, hsrc]
    simp only [mipDims, halveExtent]
    exact halveAxis_eq_max _ hpw
  · rw [hdexp, hsrc]
    simp only [mipDims, halveExtent]
    exact halveAxis_eq_max _ hph
  · rw [hdexp, hsrc]
    simp only [mipDims, halveExtent]
    exact halveAxis_eq_max _ hpd
  · rw [hdexp]
    simp only [mipDims, halveExtent]
    exact halveAxis_pos _ hpw
  · rw [hdexp]
    simp only [mipDims, halveExtent]
    exact halveAxis_pos _ hph
  · rw [hdexp]
    simp only [mipDims, halveExtent]
    exact halveAxis_pos _ hpd

/-- Witness for C7's theorem: on extent (17, 5, 1) with 6 levels, the level-0
blit reads (17, 5, 1) and writes (8, 2, 1): 8 = max (17 / 2) 1. -/
theorem generate_mipmaps_dimension_halving_witness :
    (⟨0, 1, ⟨17, 5, 1⟩, ⟨8, 2, 1⟩⟩ : BlitRegion) ∈ generate_mipmaps_blits ⟨17, 5, 1⟩ 6
    ∧ (8 : Nat) = max (17 / 2) 1 :=
  ⟨by decide,
    ((generate_mipmaps_dimension_halving ⟨17, 5, 1⟩ 6 (by decide) (by decide)
        (by decide) (by decide)).1 ⟨0, 1, ⟨17, 5, 1⟩, ⟨8, 2, 1⟩⟩
      (by decide)).2.2.2.1⟩

/-- C8: for every cross-layout source of width `W` and height `H`,
`create_cubemap` derives the cube extent `(W / 4, H / 3)`, creates a 6-layer
cube-compatible single-mip image, and issues exactly six copy regions of that
extent, one per destination array layer 0..5 in the fixed cross order
(+X, -X, +Y, -Y, +Z, -Z); layer 0 is sourced from the cross's right cell at
source offset (W * 2 / 4, H * 1 / 3). -/
theorem create_cubemap_regions_spec (W H : Nat) :
    (cubemapCopies W H).length = 6
    ∧ (cubemapCopies W H).map CubeCopyRegion.dstBaseLayer = [0, 1, 2, 3, 4, 5]
    ∧ (∀ reg ∈ cubemapCopies W H, reg.extent = cubemapExtent W H)
    ∧ (cubemapCopies W H).map (fun reg => (reg.srcOffsetX, reg.srcOffsetY))
        = [(W * 2 / 4, H * 1 / 3), (W * 0 / 4, H * 1 / 3), (W * 1 / 4, H * 0 / 3),
           (W * 1 / 4, H * 2 / 3), (W * 1 / 4, H * 1 / 3), (W * 3 / 4, H * 1 / 3)]
    ∧ (cubemapCopies W H).head? = some ⟨W * 2 / 4, H * 1 / 3, 0, cubemapExtent W H⟩
    ∧ cubemapImageInfo W H
        = { extent := ⟨W / 4, H / 3, 1⟩, mipLevels := 1, arrayLayers := 6,
            cubeCompatible := true } := by
  refine ⟨rfl, rfl, ?_, rfl, rfl, rfl⟩
  intro reg hreg
  simp only [cubemapCopies, List.mem_cons, List.not_mem_nil, or_false] at hreg
  rcases hreg with rfl | rfl | rfl | rfl | rfl | rfl <;> rfl

/-- Witness for C8's theorem: for an 8 × 6 cross layout, the layer-0 region
(at source offset (4, 2)) has the cube extent (2, 2, 1). -/
theorem create_cubemap_regions_spec_witness :
    (⟨4, 2, 0, cubemapExtent 8 6⟩ : CubeCopyRegion).extent = cubemapExtent 8 6 :=
  (create_cubemap_regions_spec 8 6).2.2.1 ⟨4, 2, 0, cubemapExtent 8 6⟩ (by decide)

/-! ## Theorems: image creation transition coverage (C10) -/

/-- C10: when `create_result` succeeds with a requested layout other than
`undefined` and more than one mip level, the image view spans all
`mip_levels`, but the one-shot layout-transition barrier covers only mip
level 0 (base level 0, level count 1): no level in `1 .. mip_levels - 1` is
covered by the transition out of the undefined layout. -/
theorem create_result_transitions_only_level_zero (env : CreateImageEnv)
    (config : ImageConfig) (img : CreatedImage)
    (hlay : config.layout ≠ .undefined) (hmip : 1 < config.mip_levels)
    (h : GpuImage.create_result env config = .ok img) :
    img.viewRange = ⟨0, config.mip_levels, 0, 1⟩
    ∧ (∀ l, l < config.mip_levels → img.viewRange.coversMip l)
    ∧ img.transitionRange = some ⟨0, 1, 0, 1⟩
    ∧ img.transitionLayout = some config.layout
    ∧ (∀ l, 1 ≤ l → l < config.mip_levels →
        ∀ r, img.transitionRange = some r → ¬ r.coversMip l) := by
  unfold GpuImage.create_result at h
  split_ifs at h with h1 h2 h3 h4 h5
  all_goals first
    | exact Res.noConfusion h
    | exact absurd (show config.layout = ImageLayout.undefined by assumption) hlay
    | (injection h with h
       subst h
       exact ⟨rfl, fun l hl => ⟨Nat.zero_le l, by simpa using hl⟩, rfl, rfl,
         fun l h1l hlm r hr => by
           injection hr with hr
           subst hr
           simp only [SubresourceRange.coversMip]
           omega⟩)

/-- Witness for C10's theorem: a 4-level image requested in the
shader-read-only layout is transitioned over mip range [0, 1) only. -/
theorem create_result_transitions_only_level_zero_witness :
    (CreatedImage.mk ⟨0, 4, 0, 1⟩ (some ⟨0, 1, 0, 1⟩)
        (some .shaderReadOnlyOptimal)).transitionRange = some ⟨0, 1, 0, 1⟩ :=
  (create_result_transitions_only_level_zero ⟨true, true, true⟩
    ⟨⟨4, 4, 1⟩, 4, .shaderReadOnlyOptimal⟩ _ (by decide) (by decide) rfl).2.2.1

end hg
